import Mathlib

/-!
# Verification of the UVmap_island geometric transform pipeline

Shallow embedding of the texture-selection / texture-extraction core of the
stone-slab visualizer.  Numbers are modelled as rationals (`ℚ`): the
JavaScript source only ever combines its inputs with `+ - * /`, `Math.max`,
`Math.min`, `Math.round`, and integer `%`, and every claim below is settled
at quarter-turn rotation angles where the trigonometric factors are exact
(−1, 0, 1), so the rational model is exact on the reachable states.

Embedded source functions (names kept from the repository):
* `calculateOptimalTextureDimensions`, `extractTextureFromSelection`
  (texture utility module);
* `isPointInRotatedRect`, `rotateSelection`, `flipSelection`,
  the drag branch of `handleMouseMove`, and the selection-sizing effect
  (TextureSelector component);
* `defaultSelection` (store module).
-/

/-- JavaScript `Math.round`: round half toward positive infinity. -/
def jsRound (q : ℚ) : ℤ := Int.floor (q + 1/2)

/-- JavaScript `%` on integers: remainder with the sign of the dividend
(truncated division), `Int.tmod` in Lean. -/
def jsMod (a b : ℤ) : ℤ := Int.tmod a b

/-- Cosine of an angle given in degrees.  Exact for the quarter-turn angles
0/90/180/270 (mod 360), which are the only rotation values reachable through
`rotateSelection`; other angles are not modelled (the value 0 is returned). -/
def cosDeg (d : ℤ) : ℚ :=
  if d.emod 360 = 0 then 1
  else if d.emod 360 = 90 then 0
  else if d.emod 360 = 180 then -1
  else if d.emod 360 = 270 then 0
  else 0

/-- Sine of an angle given in degrees, exact for quarter-turn angles
(see `cosDeg`). -/
def sinDeg (d : ℤ) : ℚ :=
  if d.emod 360 = 0 then 0
  else if d.emod 360 = 90 then 1
  else if d.emod 360 = 180 then 0
  else if d.emod 360 = 270 then -1
  else 0

/-- The surface identity passed (and ignored) by the extraction engine. -/
inductive Surface where
  | top
  | left
  | right
deriving DecidableEq, Repr

/-- The `Selection` record (lib/types): screen-space rectangle plus
transform state.  The optional TypeScript fields `rotation`, `flipH`,
`flipV` are modelled as total (the code reads them through `|| 0` /
boolean coercion, which is the identity on present values); `aspect`
embeds the source field `aspectRatio`. -/
structure Selection where
  x : ℚ
  y : ℚ
  width : ℚ
  height : ℚ
  aspect : ℚ
  rotation : ℤ
  flipH : Bool
  flipV : Bool
deriving DecidableEq, Repr

/-- `MAX_TEXTURE_SIZE` from the texture utility module. -/
def MAX_TEXTURE_SIZE : ℚ := 4096

/-- `calculateOptimalTextureDimensions(width, height, maxSize)`: cap the
dimensions to `maxSize` preserving the aspect, else round both. -/
def calculateOptimalTextureDimensions (width height maxSize : ℚ) : ℚ × ℚ :=
  let aspect := width / height
  if width > maxSize ∨ height > maxSize then
    if width > height then
      (maxSize, (jsRound (maxSize / aspect) : ℚ))
    else
      ((jsRound (maxSize * aspect) : ℚ), maxSize)
  else
    ((jsRound width : ℚ), (jsRound height : ℚ))

/-- The geometric output of the `img.onload` body of
`extractTextureFromSelection`: texture canvas dimensions, the
(pre-capping) output dimensions `outputWidth = srcW`, `outputHeight = srcH`,
the clamped source sampling rectangle, and the effective rotation. -/
structure ExtractResult where
  outputWidth : ℚ
  outputHeight : ℚ
  texWidth : ℚ
  texHeight : ℚ
  sampleX : ℚ
  sampleY : ℚ
  sampleW : ℚ
  sampleH : ℚ
  rotation : ℤ
deriving DecidableEq, Repr

/-- The deterministic geometry of `extractTextureFromSelection` (texture
utility module, `img.onload` body): screen-to-image scaling, rotation
handling (output dimensions stay `srcW × srcH`; for 90/270 the *sampled*
rectangle has swapped dimensions), `calculateOptimalTextureDimensions`
capping, and center-anchored clamping of the sample rectangle.
`devicePixelRatio` (which scales both canvas dimensions uniformly in
`createHighResCanvas`) is modelled as 1. -/
def extractCore (imgWidth imgHeight : ℚ) (sel : Selection)
    (canvasWidth canvasHeight : ℚ) : ExtractResult :=
  let scaleX := imgWidth / canvasWidth
  let scaleY := imgHeight / canvasHeight
  let srcX := sel.x * scaleX
  let srcY := sel.y * scaleY
  let srcW := sel.width * scaleX
  let srcH := sel.height * scaleY
  let rotation := jsMod sel.rotation 360
  let isRotated90or270 : Bool := rotation == 90 || rotation == 270
  let outputWidth := srcW
  let outputHeight := srcH
  let td := calculateOptimalTextureDimensions outputWidth outputHeight MAX_TEXTURE_SIZE
  let centerX := srcX + srcW / 2
  let centerY := srcY + srcH / 2
  let sampleSrcW := if isRotated90or270 then srcH else srcW
  let sampleSrcH := if isRotated90or270 then srcW else srcH
  let sampleX := max 0 (min (imgWidth - sampleSrcW) (centerX - sampleSrcW / 2))
  let sampleY := max 0 (min (imgHeight - sampleSrcH) (centerY - sampleSrcH / 2))
  { outputWidth := outputWidth
    outputHeight := outputHeight
    texWidth := td.1
    texHeight := td.2
    sampleX := sampleX
    sampleY := sampleY
    sampleW := sampleSrcW
    sampleH := sampleSrcH
    rotation := rotation }

/-- The content of the extracted bitmap, as the idealized continuous
resampling the canvas draw performs: the draw applies
`translate(center) ∘ rotate(rotation) ∘ translate(-center)` and maps the
sample rectangle onto the full `texWidth × texHeight` canvas, so a
destination point is painted with the source point obtained by the inverse
transform.  `flipH`/`flipV` do not appear: the source applies no flip
transform during extraction. -/
def extractBitmap (img : ℚ → ℚ → ℚ) (imgWidth imgHeight : ℚ)
    (sel : Selection) (canvasWidth canvasHeight : ℚ) : ℚ → ℚ → ℚ :=
  fun px py =>
    let r := extractCore imgWidth imgHeight sel canvasWidth canvasHeight
    let cx := r.texWidth / 2
    let cy := r.texHeight / 2
    let qx := (px - cx) * cosDeg (-r.rotation) - (py - cy) * sinDeg (-r.rotation) + cx
    let qy := (px - cx) * sinDeg (-r.rotation) + (py - cy) * cosDeg (-r.rotation) + cy
    img (r.sampleX + qx * r.sampleW / r.texWidth)
        (r.sampleY + qy * r.sampleH / r.texHeight)

/-- The full promise-level `extractTextureFromSelection`: rejects only when
the image fails to load (`img.onerror`); the loaded path runs the pure
geometry and resolves.  The `surface` parameter is part of the source
signature and is never read by the body. -/
def extractTextureFromSelection (imageLoads : Bool) (img : ℚ → ℚ → ℚ)
    (imgWidth imgHeight : ℚ) (sel : Selection)
    (canvasWidth canvasHeight : ℚ) (surface : Option Surface) :
    Except String (ExtractResult × (ℚ → ℚ → ℚ)) :=
  if imageLoads then
    Except.ok (extractCore imgWidth imgHeight sel canvasWidth canvasHeight,
      extractBitmap img imgWidth imgHeight sel canvasWidth canvasHeight)
  else
    Except.error "Failed to load image"

/-- `true` exactly when the extraction promise resolved. -/
def isResolved {α : Type} : Except String α → Bool
  | Except.ok _ => true
  | Except.error _ => false

/-- `isPointInRotatedRect` (TextureSelector): translate the point relative
to the rectangle's center, rotate it by the negated rotation, and compare
with the half-width/half-height bounds.  The source converts the degree
value to radians and calls `Math.cos`/`Math.sin`; `cosDeg`/`sinDeg` are
those values, exact at the reachable quarter-turn angles. -/
def isPointInRotatedRect (px py : ℚ) (sel : Selection) : Bool :=
  let centerX := sel.x + sel.width / 2
  let centerY := sel.y + sel.height / 2
  let translatedX := px - centerX
  let translatedY := py - centerY
  let rotatedX := translatedX * cosDeg (-sel.rotation) - translatedY * sinDeg (-sel.rotation)
  let rotatedY := translatedX * sinDeg (-sel.rotation) + translatedY * cosDeg (-sel.rotation)
  let halfWidth := sel.width / 2
  let halfHeight := sel.height / 2
  decide (|rotatedX| ≤ halfWidth ∧ |rotatedY| ≤ halfHeight)

/-- The spec's own wording of the hit test, stated independently of the
source: after translating the point relative to the rectangle's center and
rotating it by the negated rotation, it lies within the
half-width/half-height bounds of the unrotated rectangle.  Used to compare
the source's `isPointInRotatedRect` against the specification text. -/
def inRotatedRectSpec (px py : ℚ) (sel : Selection) : Prop :=
  |((px - (sel.x + sel.width / 2)) * cosDeg (-sel.rotation) -
      (py - (sel.y + sel.height / 2)) * sinDeg (-sel.rotation))| ≤ sel.width / 2 ∧
  |((px - (sel.x + sel.width / 2)) * sinDeg (-sel.rotation) +
      (py - (sel.y + sel.height / 2)) * cosDeg (-sel.rotation))| ≤ sel.height / 2

/-- The two rotate buttons. -/
inductive RotDir where
  | cw
  | ccw
deriving DecidableEq, Repr

/-- `rotateSelection` (TextureSelector): step the rotation by ±90 degrees,
reduced mod 360 with JavaScript `%`. -/
def rotateSelection (sel : Selection) (dir : RotDir) : Selection :=
  match dir with
  | RotDir.cw => { sel with rotation := jsMod (sel.rotation + 90) 360 }
  | RotDir.ccw => { sel with rotation := jsMod (sel.rotation - 90 + 360) 360 }

/-- The two flip buttons. -/
inductive FlipDir where
  | horizontal
  | vertical
deriving DecidableEq, Repr

/-- `flipSelection` (TextureSelector): toggle the matching flip flag. -/
def flipSelection (sel : Selection) (dir : FlipDir) : Selection :=
  match dir with
  | FlipDir.horizontal => { sel with flipH := !sel.flipH }
  | FlipDir.vertical => { sel with flipV := !sel.flipV }

/-- The drag branch of `handleMouseMove` (TextureSelector): the new
position is the pointer position minus the grab offset, clamped with
`Math.max(0, Math.min(canvasSize - selectionSize, ·))` on each axis. -/
def handleMouseMoveDrag (canvasWidth canvasHeight : ℚ) (sel : Selection)
    (pointerX pointerY offsetX offsetY : ℚ) : Selection :=
  { sel with
    x := max 0 (min (canvasWidth - sel.width) (pointerX - offsetX))
    y := max 0 (min (canvasHeight - sel.height) (pointerY - offsetY)) }

/-- `defaultSelection` (store): fixed 10px inset, fixed 0.15 canvas scale
factor, no rotation, no flips. -/
def defaultSelection (width height : ℚ) : Selection :=
  { x := 10
    y := 10
    width := width * (15 / 100)
    height := height * (15 / 100)
    aspect := width / height
    rotation := 0
    flipH := false
    flipV := false }

/-- The top-surface branch of the TextureSelector selection-sizing effect:
sizes the selection to the island's top surface (length × width, mm) times
`mmToCanvasScale = canvasWidth / slabWidthMm`. -/
def updateSelectionSizesTop (sel : Selection)
    (islandLength islandWidth canvasWidth slabWidth : ℚ) : Selection :=
  { sel with
    width := islandLength * (canvasWidth / slabWidth)
    height := islandWidth * (canvasWidth / slabWidth) }

/-- The side-surface branch of the TextureSelector selection-sizing effect:
sizes the selection to a side surface (width × height, mm) times
`mmToCanvasScale = canvasWidth / slabWidthMm`. -/
def updateSelectionSizesSide (sel : Selection)
    (islandWidth islandHeight canvasWidth slabWidth : ℚ) : Selection :=
  { sel with
    width := islandWidth * (canvasWidth / slabWidth)
    height := islandHeight * (canvasWidth / slabWidth) }
/-- Shifting clamp `max 0 (min (A - W) t)` keeps a width-`W` interval inside
`[0, A]` whenever `W ≤ A`. -/
theorem clamp_shift_bounds (A t W : ℚ) (h : W ≤ A) :
    0 ≤ max 0 (min (A - W) t) ∧ max 0 (min (A - W) t) + W ≤ A := by
  constructor
  · exact le_max_left _ _
  · have h1 : max 0 (min (A - W) t) ≤ A - W := max_le (by linarith) (min_le_left _ _)
    linarith

/-- C9: for every selection whose rotation is one of 0/90/180/270, four
clockwise rotate actions return the rotation to its original value, one
clockwise followed by one counter-clockwise rotate leaves it unchanged, and
each step computes `(current + 90) % 360` resp. `(current - 90 + 360) % 360`. -/
theorem rotateSelection_cycle (sel : Selection)
    (h : sel.rotation = 0 ∨ sel.rotation = 90 ∨ sel.rotation = 180 ∨ sel.rotation = 270) :
    (rotateSelection (rotateSelection (rotateSelection (rotateSelection sel RotDir.cw)
        RotDir.cw) RotDir.cw) RotDir.cw).rotation = sel.rotation ∧
    (rotateSelection (rotateSelection sel RotDir.cw) RotDir.ccw).rotation = sel.rotation ∧
    (rotateSelection sel RotDir.cw).rotation = jsMod (sel.rotation + 90) 360 ∧
    (rotateSelection sel RotDir.ccw).rotation = jsMod (sel.rotation - 90 + 360) 360 := by
  rcases h with h | h | h | h <;> simp [rotateSelection, jsMod, h] <;> decide

/-- Witness for C9 at rotation 270. -/
theorem rotateSelection_cycle_witness :
    (rotateSelection (rotateSelection (rotateSelection (rotateSelection
        ⟨10, 10, 200, 100, 2, 270, false, false⟩ RotDir.cw) RotDir.cw) RotDir.cw)
        RotDir.cw).rotation = (270 : ℤ) :=
  (rotateSelection_cycle ⟨10, 10, 200, 100, 2, 270, false, false⟩
    (Or.inr (Or.inr (Or.inr rfl)))).1

/-- C3: for every drag pointer-move (any pointer position and grab offset,
including ones that would place the rectangle fully outside the canvas), the
updated position obeys `0 ≤ x ≤ canvasWidth - width` and
`0 ≤ y ≤ canvasHeight - height`; the bounds presuppose that the selection
fits in the canvas. -/
theorem drag_position_clamped (canvasWidth canvasHeight : ℚ) (sel : Selection)
    (pointerX pointerY offsetX offsetY : ℚ)
    (hw : sel.width ≤ canvasWidth) (hh : sel.height ≤ canvasHeight) :
    0 ≤ (handleMouseMoveDrag canvasWidth canvasHeight sel pointerX pointerY offsetX offsetY).x ∧
    (handleMouseMoveDrag canvasWidth canvasHeight sel pointerX pointerY offsetX offsetY).x ≤
      canvasWidth - sel.width ∧
    0 ≤ (handleMouseMoveDrag canvasWidth canvasHeight sel pointerX pointerY offsetX offsetY).y ∧
    (handleMouseMoveDrag canvasWidth canvasHeight sel pointerX pointerY offsetX offsetY).y ≤
      canvasHeight - sel.height := by
  simp only [handleMouseMoveDrag]
  exact ⟨le_max_left _ _, max_le (by linarith) (min_le_left _ _),
    le_max_left _ _, max_le (by linarith) (min_le_left _ _)⟩

/-- Witness for C3: a pointer delta far outside the canvas still lands the
200×100 selection inside the 1600×1200 canvas. -/
theorem drag_position_clamped_witness :
    0 ≤ (handleMouseMoveDrag 1600 1200 ⟨10, 10, 200, 100, 2, 0, false, false⟩
        (-5000) 9999 0 0).x ∧
    (handleMouseMoveDrag 1600 1200 ⟨10, 10, 200, 100, 2, 0, false, false⟩
        (-5000) 9999 0 0).x ≤ 1600 - 200 ∧
    0 ≤ (handleMouseMoveDrag 1600 1200 ⟨10, 10, 200, 100, 2, 0, false, false⟩
        (-5000) 9999 0 0).y ∧
    (handleMouseMoveDrag 1600 1200 ⟨10, 10, 200, 100, 2, 0, false, false⟩
        (-5000) 9999 0 0).y ≤ 1200 - 100 :=
  drag_position_clamped 1600 1200 ⟨10, 10, 200, 100, 2, 0, false, false⟩
    (-5000) 9999 0 0 (by norm_num) (by norm_num)

/-- C4: the hit test agrees with the spec's description (translate to the
center, rotate by the negated rotation, compare with half-bounds); the
pre-rotation center is hit for every quarter-turn rotation of a
nonnegatively sized selection; and for the 200×100 rectangle centered at
(100,100) rotated 90°, the point (100,160) is hit while (160,100) is not. -/
theorem hit_rotated_rect_correct :
    (∀ (px py : ℚ) (sel : Selection),
      isPointInRotatedRect px py sel = true ↔ inRotatedRectSpec px py sel) ∧
    (∀ sel : Selection,
      (sel.rotation = 0 ∨ sel.rotation = 90 ∨ sel.rotation = 180 ∨ sel.rotation = 270) →
      0 ≤ sel.width → 0 ≤ sel.height →
      isPointInRotatedRect (sel.x + sel.width / 2) (sel.y + sel.height / 2) sel = true) ∧
    isPointInRotatedRect 100 160 ⟨0, 50, 200, 100, 2, 90, false, false⟩ = true ∧
    isPointInRotatedRect 160 100 ⟨0, 50, 200, 100, 2, 90, false, false⟩ = false := by
  refine ⟨?_, ?_, ?_, ?_⟩
  · intro px py sel
    simp [isPointInRotatedRect, inRotatedRectSpec]
  · intro sel hrot hw hh
    simp only [isPointInRotatedRect, decide_eq_true_eq, sub_self, zero_mul, sub_zero,
      zero_add, add_zero, abs_zero]
    constructor <;> linarith
  · norm_num [isPointInRotatedRect, cosDeg, sinDeg]
  · norm_num [isPointInRotatedRect, cosDeg, sinDeg]

/-- Witness for C4: the center of a concrete 200×100 selection rotated 180°
is reported as hit. -/
theorem hit_rotated_rect_correct_witness :
    isPointInRotatedRect ((10 : ℚ) + 200 / 2) ((20 : ℚ) + 100 / 2)
      ⟨10, 20, 200, 100, 2, 180, false, false⟩ = true :=
  hit_rotated_rect_correct.2.1 ⟨10, 20, 200, 100, 2, 180, false, false⟩
    (Or.inr (Or.inr (Or.inl rfl))) (by norm_num) (by norm_num)

/-- C5 counterexample: at the documented base scale of 0.3 px/mm (slab width
9060 mm shown on a 2718 px canvas), the store's default top selection for
island length 2440 mm has width 366 px, not `2440 * pixelsPerMm = 732` px,
off by far more than one pixel. -/
theorem defaultSelection_pixelsPerMm_refuted :
    ¬ |(defaultSelection 2440 1234).width - 2440 * ((2718 : ℚ) / 9060)| ≤ 1 := by
  norm_num [defaultSelection]

/-- C5 (amended): the store's default selection has position (10,10),
rotation 0 and both flips false, but its size is the surface's millimeter
dimensions times the fixed factor 0.15 — not the current pixels-per-mm
scale; it is the selector's subsequent sizing effect that sets the size to
the millimeter dimensions times `canvasWidth / slabWidthMm`. -/
theorem defaultSelection_fields_and_sizing :
    (∀ w h : ℚ, (defaultSelection w h).x = 10 ∧ (defaultSelection w h).y = 10 ∧
      (defaultSelection w h).rotation = 0 ∧ (defaultSelection w h).flipH = false ∧
      (defaultSelection w h).flipV = false ∧
      (defaultSelection w h).width = w * (15 / 100) ∧
      (defaultSelection w h).height = h * (15 / 100)) ∧
    (∀ (sel : Selection) (len wid cw sw : ℚ),
      (updateSelectionSizesTop sel len wid cw sw).width = len * (cw / sw) ∧
      (updateSelectionSizesTop sel len wid cw sw).height = wid * (cw / sw)) ∧
    (∀ (sel : Selection) (wid hgt cw sw : ℚ),
      (updateSelectionSizesSide sel wid hgt cw sw).width = wid * (cw / sw) ∧
      (updateSelectionSizesSide sel wid hgt cw sw).height = hgt * (cw / sw)) :=
  ⟨fun _ _ => ⟨rfl, rfl, rfl, rfl, rfl, rfl, rfl⟩,
   fun _ _ _ _ _ => ⟨rfl, rfl⟩,
   fun _ _ _ _ _ => ⟨rfl, rfl⟩⟩

/-- C6: whenever the requested (possibly dimension-swapped) sampling
rectangle fits inside the source image, the clamped rectangle lies entirely
within the image bounds and keeps exactly the requested width and height
(the clamp shifts the anchor, never resizes). -/
theorem sample_rect_clamped_within_bounds
    (imgWidth imgHeight canvasWidth canvasHeight : ℚ) (sel : Selection)
    (hW : (extractCore imgWidth imgHeight sel canvasWidth canvasHeight).sampleW ≤ imgWidth)
    (hH : (extractCore imgWidth imgHeight sel canvasWidth canvasHeight).sampleH ≤ imgHeight) :
    0 ≤ (extractCore imgWidth imgHeight sel canvasWidth canvasHeight).sampleX ∧
    (extractCore imgWidth imgHeight sel canvasWidth canvasHeight).sampleX +
      (extractCore imgWidth imgHeight sel canvasWidth canvasHeight).sampleW ≤ imgWidth ∧
    0 ≤ (extractCore imgWidth imgHeight sel canvasWidth canvasHeight).sampleY ∧
    (extractCore imgWidth imgHeight sel canvasWidth canvasHeight).sampleY +
      (extractCore imgWidth imgHeight sel canvasWidth canvasHeight).sampleH ≤ imgHeight ∧
    (extractCore imgWidth imgHeight sel canvasWidth canvasHeight).sampleW =
      (if jsMod sel.rotation 360 == 90 || jsMod sel.rotation 360 == 270
        then sel.height * (imgHeight / canvasHeight)
        else sel.width * (imgWidth / canvasWidth)) ∧
    (extractCore imgWidth imgHeight sel canvasWidth canvasHeight).sampleH =
      (if jsMod sel.rotation 360 == 90 || jsMod sel.rotation 360 == 270
        then sel.width * (imgWidth / canvasWidth)
        else sel.height * (imgHeight / canvasHeight)) := by
  simp only [extractCore] at hW hH ⊢
  exact ⟨(clamp_shift_bounds _ _ _ hW).1, (clamp_shift_bounds _ _ _ hW).2,
    (clamp_shift_bounds _ _ _ hH).1, (clamp_shift_bounds _ _ _ hH).2, trivial, trivial⟩

/-- Witness for C6: a 100×100 selection near the bottom-right corner of a
640×480 image is shifted to `sampleX = 540`, staying fully inside. -/
theorem sample_rect_clamped_within_bounds_witness :
    0 ≤ (extractCore 640 480 ⟨600, 400, 100, 100, 1, 0, false, false⟩ 640 480).sampleX ∧
    (extractCore 640 480 ⟨600, 400, 100, 100, 1, 0, false, false⟩ 640 480).sampleX +
      (extractCore 640 480 ⟨600, 400, 100, 100, 1, 0, false, false⟩ 640 480).sampleW ≤ 640 ∧
    0 ≤ (extractCore 640 480 ⟨600, 400, 100, 100, 1, 0, false, false⟩ 640 480).sampleY ∧
    (extractCore 640 480 ⟨600, 400, 100, 100, 1, 0, false, false⟩ 640 480).sampleY +
      (extractCore 640 480 ⟨600, 400, 100, 100, 1, 0, false, false⟩ 640 480).sampleH ≤ 480 ∧
    (extractCore 640 480 ⟨600, 400, 100, 100, 1, 0, false, false⟩ 640 480).sampleW =
      (if jsMod (Selection.rotation ⟨600, 400, 100, 100, 1, 0, false, false⟩) 360 == 90 ||
          jsMod (Selection.rotation ⟨600, 400, 100, 100, 1, 0, false, false⟩) 360 == 270
        then (100 : ℚ) * (480 / 480) else (100 : ℚ) * (640 / 640)) ∧
    (extractCore 640 480 ⟨600, 400, 100, 100, 1, 0, false, false⟩ 640 480).sampleH =
      (if jsMod (Selection.rotation ⟨600, 400, 100, 100, 1, 0, false, false⟩) 360 == 90 ||
          jsMod (Selection.rotation ⟨600, 400, 100, 100, 1, 0, false, false⟩) 360 == 270
        then (100 : ℚ) * (640 / 640) else (100 : ℚ) * (480 / 480)) :=
  sample_rect_clamped_within_bounds 640 480 640 480 ⟨600, 400, 100, 100, 1, 0, false, false⟩
    (by norm_num [extractCore, jsMod, Int.tmod])
    (by norm_num [extractCore, jsMod, Int.tmod])

/-- C1 counterexample: a selection sized for a 200×100 mm face (scale 1),
rotated 90°, on a square image matching a square canvas, yields a 200×100
bitmap — its width/height ratio is not the swapped face aspect
`heightMm / widthMm = 1/2` within one pixel (the code keeps the unswapped
`srcW × srcH` output for every rotation). -/
theorem extract_aspect_swap_refuted :
    ¬ |(extractCore 400 400 ⟨0, 0, 200, 100, 2, 90, false, false⟩ 400 400).texWidth -
        (extractCore 400 400 ⟨0, 0, 200, 100, 2, 90, false, false⟩ 400 400).texHeight *
          (100 / 200)| ≤ 1 := by
  norm_num [extractCore, calculateOptimalTextureDimensions, jsRound, jsMod, Int.tmod,
    MAX_TEXTURE_SIZE]

/-- C1 (amended): for every rotation — quarter-turn or not — the output
dimensions of the extraction are `srcW × srcH`, so whenever the selection is
sized proportionally to the destination face (`width = faceW * s`,
`height = faceH * s`) and the image-to-canvas scale is uniform, the output
width/height ratio equals `faceW / faceH` (never the swapped ratio); the
returned bitmap dimensions are the JavaScript-rounded output dimensions when
neither exceeds the 4096 px cap. -/
theorem extract_aspect_matches_face
    (imgWidth imgHeight canvasWidth canvasHeight faceW faceH s : ℚ) (sel : Selection)
    (hw : sel.width = faceW * s) (hh : sel.height = faceH * s)
    (hscale : imgWidth / canvasWidth = imgHeight / canvasHeight) :
    (extractCore imgWidth imgHeight sel canvasWidth canvasHeight).outputWidth * faceH =
      (extractCore imgWidth imgHeight sel canvasWidth canvasHeight).outputHeight * faceW ∧
    (sel.width * (imgWidth / canvasWidth) ≤ 4096 →
      sel.height * (imgHeight / canvasHeight) ≤ 4096 →
      (extractCore imgWidth imgHeight sel canvasWidth canvasHeight).texWidth =
        (jsRound (sel.width * (imgWidth / canvasWidth)) : ℚ) ∧
      (extractCore imgWidth imgHeight sel canvasWidth canvasHeight).texHeight =
        (jsRound (sel.height * (imgHeight / canvasHeight)) : ℚ)) := by
  constructor
  · simp only [extractCore]
    rw [hw, hh, ← hscale]
    ring
  · intro h1 h2
    simp only [extractCore, calculateOptimalTextureDimensions, MAX_TEXTURE_SIZE]
    rw [if_neg]
    · exact ⟨rfl, rfl⟩
    · push_neg
      exact ⟨h1, h2⟩

/-- Witness for C1 at an unrotated 200×100 mm face on a square image and
canvas. -/
theorem extract_aspect_matches_face_witness :
    (extractCore 400 400 ⟨0, 0, 200, 100, 2, 0, false, false⟩ 400 400).outputWidth * 100 =
      (extractCore 400 400 ⟨0, 0, 200, 100, 2, 0, false, false⟩ 400 400).outputHeight * 200 ∧
    (extractCore 400 400 ⟨0, 0, 200, 100, 2, 0, false, false⟩ 400 400).texWidth =
      (jsRound ((Selection.width ⟨0, 0, 200, 100, 2, 0, false, false⟩) * (400 / 400)) : ℚ) ∧
    (extractCore 400 400 ⟨0, 0, 200, 100, 2, 0, false, false⟩ 400 400).texHeight =
      (jsRound ((Selection.height ⟨0, 0, 200, 100, 2, 0, false, false⟩) * (400 / 400)) : ℚ) :=
  ⟨(extract_aspect_matches_face 400 400 400 400 200 100 1 ⟨0, 0, 200, 100, 2, 0, false, false⟩
      (by norm_num) (by norm_num) rfl).1,
   (extract_aspect_matches_face 400 400 400 400 200 100 1 ⟨0, 0, 200, 100, 2, 0, false, false⟩
      (by norm_num) (by norm_num) rfl).2 (by norm_num) (by norm_num)⟩

/-- C2 counterexample: with a horizontal-gradient source image, extracting a
crop with both flips set (via two toggles of `flipSelection`) does not give
the 180° point-reflection of the no-flip extraction: at texture point
(1/2, 1/2) the flipped extraction reads 1/2 while the point-reflected
no-flip extraction reads 3/2. -/
theorem extract_flip_reflection_refuted :
    ¬ (extractBitmap (fun x _ => x) 4 4
        (flipSelection (flipSelection ⟨0, 0, 2, 2, 1, 0, false, false⟩ FlipDir.horizontal)
          FlipDir.vertical) 4 4 (1 / 2) (1 / 2) =
      extractBitmap (fun x _ => x) 4 4 ⟨0, 0, 2, 2, 1, 0, false, false⟩ 4 4
        (2 - 1 / 2) (2 - 1 / 2)) := by
  norm_num [extractBitmap, extractCore, calculateOptimalTextureDimensions, jsRound, jsMod,
    Int.tmod, MAX_TEXTURE_SIZE, cosDeg, sinDeg, flipSelection]

/-- C2 (amended): the extraction applies no mirroring at all — its output is
identical for every combination of `flipH`/`flipV` (so in general it is not
the point-reflection the spec asks for); toggling the same flip twice does
return the selection to its original state. -/
theorem extract_ignores_flips :
    (∀ (img : ℚ → ℚ → ℚ) (imgWidth imgHeight : ℚ) (sel : Selection)
        (canvasWidth canvasHeight : ℚ) (b1 b2 : Bool),
      extractBitmap img imgWidth imgHeight { sel with flipH := b1, flipV := b2 }
          canvasWidth canvasHeight =
        extractBitmap img imgWidth imgHeight sel canvasWidth canvasHeight) ∧
    (∀ (sel : Selection) (d : FlipDir), flipSelection (flipSelection sel d) d = sel) := by
  constructor
  · intro img imgWidth imgHeight sel canvasWidth canvasHeight b1 b2
    rfl
  · intro sel d
    cases d <;> cases sel <;> simp [flipSelection]

/-- C7 counterexample: called with `canvasWidth = 0` (and a successfully
loaded image) the extraction still resolves with a bitmap — it does not
report an error.  In JavaScript the zero canvas size produces non-finite
source coordinates that propagate silently into the draw. -/
theorem extract_zero_canvas_resolves :
    isResolved (extractTextureFromSelection true (fun x _ => x) 640 480
      ⟨10, 10, 200, 100, 2, 0, false, false⟩ 0 0 (some Surface.top)) = true := rfl

/-- C7 (amended): the extraction never fails fast on degenerate scale
input — whenever the image loads it resolves, for every canvas size
including zero. -/
theorem extract_no_fail_fast (img : ℚ → ℚ → ℚ) (imgWidth imgHeight : ℚ)
    (sel : Selection) (canvasWidth canvasHeight : ℚ) (s : Option Surface) :
    isResolved (extractTextureFromSelection true img imgWidth imgHeight sel
      canvasWidth canvasHeight s) = true := rfl

/-- C8: extraction is a deterministic function of its inputs — two calls on
equal inputs (image content and dimensions, selection, canvas size, surface
tag, load outcome) return equal results; in this embedding the engine is a
pure function, touching no state. -/
theorem extract_deterministic
    (b1 b2 : Bool) (img1 img2 : ℚ → ℚ → ℚ) (iW1 iW2 iH1 iH2 : ℚ)
    (sel1 sel2 : Selection) (cw1 cw2 ch1 ch2 : ℚ) (s1 s2 : Option Surface)
    (hb : b1 = b2) (himg : img1 = img2) (hiW : iW1 = iW2) (hiH : iH1 = iH2)
    (hsel : sel1 = sel2) (hcw : cw1 = cw2) (hch : ch1 = ch2) (hs : s1 = s2) :
    extractTextureFromSelection b1 img1 iW1 iH1 sel1 cw1 ch1 s1 =
      extractTextureFromSelection b2 img2 iW2 iH2 sel2 cw2 ch2 s2 := by
  subst hb himg hiW hiH hsel hcw hch hs
  rfl

/-- Witness for C8 at a concrete input. -/
theorem extract_deterministic_witness :
    extractTextureFromSelection true (fun x _ => x) 640 480
        ⟨10, 10, 200, 100, 2, 0, false, false⟩ 640 480 (some Surface.top) =
      extractTextureFromSelection true (fun x _ => x) 640 480
        ⟨10, 10, 200, 100, 2, 0, false, false⟩ 640 480 (some Surface.top) :=
  extract_deterministic _ _ _ _ _ _ _ _ _ _ _ _ _ _ _ _
    rfl rfl rfl rfl rfl rfl rfl rfl

/-- C10: the extraction result is independent of the optional `surface`
argument — the body never reads it. -/
theorem extract_independent_of_surface
    (imageLoads : Bool) (img : ℚ → ℚ → ℚ) (imgWidth imgHeight : ℚ)
    (sel : Selection) (canvasWidth canvasHeight : ℚ) (s1 s2 : Option Surface) :
    extractTextureFromSelection imageLoads img imgWidth imgHeight sel
        canvasWidth canvasHeight s1 =
      extractTextureFromSelection imageLoads img imgWidth imgHeight sel
        canvasWidth canvasHeight s2 := rfl
